import Mathlib

/-!
Verification of the `last-fm-rs` client library against its specification.

The Rust sources are shallowly embedded: pure functions become Lean
functions, `BTreeMap<String, String>` becomes a key-sorted association
list, fallible code returns `Except`/`Option`, and the asynchronous client
operations are split into a pure request-construction phase (everything
before the first network await) and a pure response-decoding phase.
-/

set_option maxRecDepth 10000

namespace LastFm

/-! ### MD5 (RFC 1321), as called by `signature.rs` through `md5::compute` -/

/-- Truncate to a 32-bit word. -/
def w32 (n : Nat) : Nat := n % 4294967296

/-- Left-rotation of a 32-bit word (`x` is kept `< 2^32` by the callers). -/
def rotl (x s : Nat) : Nat := (w32 (x <<< s)) ||| (x >>> (32 - s))

/-- The 64 MD5 sine-derived constants. -/
def md5K : List Nat :=
  [3614090360, 3905402710, 606105819, 3250441966, 4118548399, 1200080426, 2821735955,
   4249261313, 1770035416, 2336552879, 4294925233, 2304563134, 1804603682, 4254626195,
   2792965006, 1236535329, 4129170786, 3225465664, 643717713, 3921069994, 3593408605,
   38016083, 3634488961, 3889429448, 568446438, 3275163606, 4107603335, 1163531501,
   2850285829, 4243563512, 1735328473, 2368359562, 4294588738, 2272392833, 1839030562,
   4259657740, 2763975236, 1272893353, 4139469664, 3200236656, 681279174, 3936430074,
   3572445317, 76029189, 3654602809, 3873151461, 530742520, 3299628645, 4096336452,
   1126891415, 2878612391, 4237533241, 1700485571, 2399980690, 4293915773, 2240044497,
   1873313359, 4264355552, 2734768916, 1309151649, 4149444226, 3174756917, 718787259,
   3951481745]

/-- The MD5 per-round shift amounts. -/
def md5S : List Nat :=
  [7, 12, 17, 22, 7, 12, 17, 22, 7, 12, 17, 22, 7, 12, 17, 22,
   5, 9, 14, 20, 5, 9, 14, 20, 5, 9, 14, 20, 5, 9, 14, 20,
   4, 11, 16, 23, 4, 11, 16, 23, 4, 11, 16, 23, 4, 11, 16, 23,
   6, 10, 15, 21, 6, 10, 15, 21, 6, 10, 15, 21, 6, 10, 15, 21]

/-- The MD5 nonlinear round function (round selected by `i`). -/
def md5F (i b c d : Nat) : Nat :=
  if i < 16 then (b &&& c) ||| ((4294967295 ^^^ b) &&& d)
  else if i < 32 then (d &&& b) ||| ((4294967295 ^^^ d) &&& c)
  else if i < 48 then b ^^^ c ^^^ d
  else c ^^^ (b ||| (4294967295 ^^^ d))

/-- The MD5 message-word index schedule. -/
def md5G (i : Nat) : Nat :=
  if i < 16 then i
  else if i < 32 then (5 * i + 1) % 16
  else if i < 48 then (3 * i + 5) % 16
  else (7 * i) % 16

/-- Little-endian 32-bit word `g` of a 64-byte chunk. -/
def chunkWord (chunk : List Nat) (g : Nat) : Nat :=
  chunk.getD (4 * g) 0 + 256 * chunk.getD (4 * g + 1) 0 +
    65536 * chunk.getD (4 * g + 2) 0 + 16777216 * chunk.getD (4 * g + 3) 0

/-- One MD5 round applied to the state `(a, b, c, d)`. -/
def md5Step (chunk : List Nat) (st : Nat × Nat × Nat × Nat) (i : Nat) :
    Nat × Nat × Nat × Nat :=
  let f := w32 (md5F i st.2.1 st.2.2.1 st.2.2.2 + st.1 + md5K.getD i 0 +
    chunkWord chunk (md5G i))
  (st.2.2.2, w32 (st.2.1 + rotl f (md5S.getD i 0)), st.2.1, st.2.2.1)

/-- Process one 64-byte chunk. -/
def md5Chunk (st : Nat × Nat × Nat × Nat) (chunk : List Nat) : Nat × Nat × Nat × Nat :=
  let r := (List.range 64).foldl (md5Step chunk) st
  (w32 (st.1 + r.1), w32 (st.2.1 + r.2.1), w32 (st.2.2.1 + r.2.2.1), w32 (st.2.2.2 + r.2.2.2))

/-- `count` little-endian bytes of `n` (each reduced mod 256). -/
def leBytes (n : Nat) : Nat → List Nat
  | 0 => []
  | k + 1 => n % 256 :: leBytes (n / 256) k

/-- MD5 padding: a 0x80 byte, zeros up to 56 mod 64, then the 64-bit bit length. -/
def md5Pad (msg : List Nat) : List Nat :=
  msg ++ [128] ++ List.replicate ((120 - (msg.length + 1) % 64) % 64) 0 ++
    leBytes ((msg.length * 8) % 18446744073709551616) 8

/-- Fold the padded message through the compression function, 64 bytes at a time. -/
def md5Chunks (st : Nat × Nat × Nat × Nat) (l : List Nat) : Nat × Nat × Nat × Nat :=
  match l with
  | [] => st
  | b :: rest => md5Chunks (md5Chunk st ((b :: rest).take 64)) (rest.drop 63)
termination_by l.length
decreasing_by simp; omega

/-- The 16-byte MD5 digest of a byte sequence. -/
def md5Bytes (msg : List Nat) : List Nat :=
  let st := md5Chunks (1732584193, 4023233417, 2562383102, 271733878) (md5Pad msg)
  leBytes st.1 4 ++ leBytes st.2.1 4 ++ leBytes st.2.2.1 4 ++ leBytes st.2.2.2 4

/-- Lowercase hexadecimal digit for `n` (callers pass `n < 16`). -/
def hexDigit (n : Nat) : Char :=
  match n with
  | 0 => '0' | 1 => '1' | 2 => '2' | 3 => '3' | 4 => '4' | 5 => '5' | 6 => '6'
  | 7 => '7' | 8 => '8' | 9 => '9' | 10 => 'a' | 11 => 'b' | 12 => 'c' | 13 => 'd'
  | 14 => 'e' | _ => 'f'

/-- Two lowercase hex characters for one digest byte (`:02x` of each byte). -/
def byteHex (b : Nat) : List Char := [hexDigit (b / 16 % 16), hexDigit (b % 16)]

/-- The `Display` in `format!("\x7b:x\x7d", md5::compute(s.as_bytes()))`: the
32-character lowercase hexadecimal rendering of the MD5 digest of the UTF-8
bytes of `s`. -/
def md5Hex (s : String) : String :=
  ⟨(md5Bytes (s.toUTF8.toList.map UInt8.toNat)).foldl (fun acc b => acc ++ byteHex b) []⟩

/-! ### The parameter map (`BTreeMap<String, String>`) -/

/-- Entry list of a `BTreeMap<String, String>`; the map invariant keeps the
keys strictly ascending, so iteration order is ascending lexical key order. -/
abbrev Params := List (String × String)

/-- `BTreeMap::insert`: place the binding at its sorted position, replacing
any existing binding of the same key. -/
def insertP (k v : String) : Params → Params
  | [] => [(k, v)]
  | (k1, v1) :: rest =>
    if k < k1 then (k, v) :: (k1, v1) :: rest
    else if k = k1 then (k, v) :: rest
    else (k1, v1) :: insertP k v rest

/-- `BTreeMap::get`: the value bound to `k`, if any. -/
def lookupP (k : String) : Params → Option String
  | [] => none
  | (k1, v1) :: rest => if k = k1 then some v1 else lookupP k rest

/-- `BTreeMap::remove`: drop the binding of `k`, if any. -/
def eraseP (k : String) : Params → Params
  | [] => []
  | (k1, v1) :: rest => if k = k1 then rest else (k1, v1) :: eraseP k rest

/-- Ascending strict lexical key order: the `BTreeMap` iteration invariant. -/
abbrev SortedKeys (l : Params) : Prop := l.Pairwise (fun a b => a.1 < b.1)

/-! ### `signature.rs` -/

/-- The loop of `signature::generate`: walk the map entries in order, skip the
`format` key, and push `key` then `value` onto the accumulated string. -/
def sigString (params : Params) : String :=
  params.foldl (fun acc kv => if kv.1 = "format" then acc else acc ++ kv.1 ++ kv.2) ""

/-- `signature::generate` (src/signature.rs lines 10-23): concatenate the
non-`format` entries as `key``value`, append the secret, and return the MD5
digest rendered as lowercase hex. -/
def generate (params : Params) (secret : String) : String :=
  md5Hex (sigString params ++ secret)

/-- Spec-side helper: concatenation of key-value pairs with no separator, in
list order. -/
def concatKV (l : Params) : String := l.foldl (fun acc kv => acc ++ kv.1 ++ kv.2) ""

/-! ### Error type (`error.rs`) -/

/-- The `Error` enum of `error.rs`. Variants that wrap foreign error types
(`reqwest::Error`, `serde_json::Error`, `url::ParseError`) carry a message
string here. -/
inductive Error where
  | Http (msg : String)
  | Json (msg : String)
  | Api (msg : String)
  | Auth (msg : String)
  | InvalidParameter (msg : String)
  | UrlParse (msg : String)
deriving DecidableEq, Repr

/-! ### Domain models (`auth.rs`, `scrobble.rs`) -/

/-- `AuthToken` from auth.rs. -/
structure AuthToken where
  token : String
deriving DecidableEq, Repr

/-- `SessionKey` from auth.rs. -/
structure SessionKey where
  key : String
  name : String
deriving DecidableEq, Repr

/-- `NowPlaying` from scrobble.rs (numeric field widths elided to `Nat`). -/
structure NowPlaying where
  artist : String
  track : String
  album : Option String
  track_number : Option Nat
  duration : Option Nat
  album_artist : Option String
  player : Option String
deriving DecidableEq, Repr

/-- `Scrobble` from scrobble.rs. -/
structure Scrobble where
  artist : String
  track : String
  timestamp : Nat
  album : Option String
  track_number : Option Nat
  duration : Option Nat
  album_artist : Option String
  player : Option String
deriving DecidableEq, Repr

/-- `ScrobbleAttr` from scrobble.rs. -/
structure ScrobbleAttr where
  accepted : Nat
  ignored : Nat
deriving DecidableEq, Repr

/-- `ScrobbleData` from scrobble.rs (the `scrobbles.@attr` wrapper). -/
structure ScrobbleData where
  attr : ScrobbleAttr
deriving DecidableEq, Repr

/-- `ScrobbleResponse` from scrobble.rs. -/
structure ScrobbleResponse where
  scrobbles : ScrobbleData
deriving DecidableEq, Repr

/-! ### JSON values (`serde_json::Value`) -/

/-- A parsed JSON value, as `serde_json::Value` (numbers elided to `Int`;
no claim depends on floating-point numerals). -/
inductive Json where
  | null
  | bool (b : Bool)
  | num (n : Int)
  | str (s : String)
  | arr (elems : List Json)
  | obj (fields : List (String × Json))

/-- `Value::get` on an object: the field value, if present. -/
def Json.get? (j : Json) (k : String) : Option Json :=
  match j with
  | .obj fields => fields.lookup k
  | _ => none

/-- `Value::index` with a string key: missing fields and non-objects give
`Null` instead of failing. -/
def Json.idxStr (j : Json) (k : String) : Json :=
  match j.get? k with
  | some v => v
  | none => .null

/-- `Value::as_str`. -/
def Json.asStr? (j : Json) : Option String :=
  match j with
  | .str s => some s
  | _ => none

/-- `Display` for `serde_json::Value` (compact rendering; string escaping is
omitted, no claim depends on it). -/
def renderJson : Json → String
  | .null => "null"
  | .bool b => if b then "true" else "false"
  | .num n => n.repr
  | .str s => "\"" ++ s ++ "\""
  | .arr elems => "[" ++ String.intercalate ","
      (elems.attach.map (fun x => renderJson x.1)) ++ "]"
  | .obj fields => "\x7b" ++ String.intercalate ","
      (fields.attach.map (fun x => "\"" ++ x.1.1 ++ "\":" ++ renderJson x.1.2)) ++ "\x7d"
decreasing_by
  · have h1 := List.sizeOf_lt_of_mem x.2
    simp only [Json.arr.sizeOf_spec]
    omega
  · have h1 := List.sizeOf_lt_of_mem x.2
    obtain ⟨⟨a, b⟩, hx⟩ := x
    simp only [Prod.mk.sizeOf_spec] at h1
    simp only [Json.obj.sizeOf_spec]
    omega

/-! ### Auth mode (`auth_mode.rs`) -/

/-- The `AuthMode` enum: keyed Last.fm mode or token mode (the parsed
`url::Url` is carried as its string rendering). -/
inductive AuthMode where
  | LastFm (api_key : String) (api_secret : String) (session_key : Option String)
  | Token (base_url : String) (token : String)
deriving DecidableEq, Repr

/-- `AuthMode::set_session_key` (auth_mode.rs lines 44-48): set the key on the
`LastFm` variant, leave the `Token` variant untouched. -/
def AuthMode.set_session_key (m : AuthMode) (key : String) : AuthMode :=
  match m with
  | .LastFm api_key api_secret _ => .LastFm api_key api_secret (some key)
  | .Token base_url token => .Token base_url token

/-! ### Client request construction (`client.rs`, the pure phase before the
first network await of each operation) -/

/-- `API_BASE` from client.rs. -/
def API_BASE : String := "https://ws.audioscrobbler.com/2.0/"

/-- `AUTH_URL` from client.rs. -/
def AUTH_URL : String := "http://www.last.fm/api/auth/"

/-- HTTP verb of an outbound request. -/
inductive HttpMethod where
  | get
  | post
deriving DecidableEq, Repr

/-- The single outbound network exchange an operation performs: URL, the
query/form parameter set, an optional JSON body, and an optional bearer
credential. An operation that fails before building one of these performs no
network activity. -/
structure NetRequest where
  verb : HttpMethod
  url : String
  params : Params
  body : Option Json
  bearer : Option String

/-- `url::Url::join` is abstracted as string concatenation (the token-mode
base URLs end in a slash; no claim depends on RFC 3986 resolution). -/
def urlJoin (base sub : String) : String := base ++ sub

/-- Parameter set of `get_token` before signing (client.rs lines 75-77). -/
def getTokenParams (api_key : String) : Params :=
  insertP "api_key" api_key (insertP "method" "auth.getToken" [])

/-- Parameter set of `get_session` before signing (client.rs lines 129-132). -/
def getSessionParams (api_key tok : String) : Params :=
  insertP "token" tok (insertP "api_key" api_key (insertP "method" "auth.getSession" []))

/-- Parameter set of `update_now_playing` before signing (client.rs lines
168-186): base entries, then each present optional field except `player`,
which the keyed path never encodes. -/
def nowPlayingParams (api_key sk : String) (np : NowPlaying) : Params :=
  let p := insertP "method" "track.updateNowPlaying" []
  let p := insertP "api_key" api_key p
  let p := insertP "sk" sk p
  let p := insertP "artist" np.artist p
  let p := insertP "track" np.track p
  let p := match np.album with
    | some album => insertP "album" album p
    | none => p
  let p := match np.track_number with
    | some tn => insertP "trackNumber" (Nat.repr tn) p
    | none => p
  let p := match np.duration with
    | some d => insertP "duration" (Nat.repr d) p
    | none => p
  match np.album_artist with
  | some aa => insertP "albumArtist" aa p
  | none => p

/-- `format!("\x7bbase\x7d[\x7bi\x7d]")`: the index-suffixed parameter name. -/
def idx (base : String) (i : Nat) : String := base ++ "[" ++ Nat.repr i ++ "]"

/-- Loop body of the keyed `scrobble` (client.rs lines 247-264): the record at
position `i` contributes its fields under index-suffixed names; `player` is
never encoded. -/
def scrobbleEntry (i : Nat) (s : Scrobble) (p : Params) : Params :=
  let p := insertP (idx "artist" i) s.artist p
  let p := insertP (idx "track" i) s.track p
  let p := insertP (idx "timestamp" i) (Nat.repr s.timestamp) p
  let p := match s.album with
    | some album => insertP (idx "album" i) album p
    | none => p
  let p := match s.track_number with
    | some tn => insertP (idx "trackNumber" i) (Nat.repr tn) p
    | none => p
  let p := match s.duration with
    | some d => insertP (idx "duration" i) (Nat.repr d) p
    | none => p
  match s.album_artist with
  | some aa => insertP (idx "albumArtist" i) aa p
  | none => p

/-- Parameter set of the keyed `scrobble` before signing (client.rs lines
242-264). -/
def scrobbleParams (api_key sk : String) (scrobbles : List Scrobble) : Params :=
  let p := insertP "method" "track.scrobble" []
  let p := insertP "api_key" api_key p
  let p := insertP "sk" sk p
  scrobbles.enum.foldl (fun p is => scrobbleEntry is.1 is.2 p) p

/-- The seven base names the keyed `scrobble` loop can index-suffix. -/
def scrobbleBases : List String :=
  ["artist", "track", "timestamp", "album", "trackNumber", "duration", "albumArtist"]

/-- The signing step shared by every keyed operation: compute `api_sig` over
the current parameter set, then add `api_sig` and `format=json`. -/
def signParams (p : Params) (secret : String) : Params :=
  insertP "format" "json" (insertP "api_sig" (generate p secret) p)

/-- Serde serialization of `NowPlaying` (token-mode JSON body); `None`
serializes as `null`. -/
def nowPlayingJson (np : NowPlaying) : Json :=
  .obj [("artist", .str np.artist), ("track", .str np.track),
    ("album", match np.album with | some a => .str a | none => .null),
    ("track_number", match np.track_number with | some n => .num n | none => .null),
    ("duration", match np.duration with | some n => .num n | none => .null),
    ("album_artist", match np.album_artist with | some a => .str a | none => .null),
    ("player", match np.player with | some a => .str a | none => .null)]

/-- Serde serialization of `Scrobble` (token-mode JSON body element). -/
def scrobbleJson (s : Scrobble) : Json :=
  .obj [("artist", .str s.artist), ("track", .str s.track),
    ("timestamp", .num s.timestamp),
    ("album", match s.album with | some a => .str a | none => .null),
    ("track_number", match s.track_number with | some n => .num n | none => .null),
    ("duration", match s.duration with | some n => .num n | none => .null),
    ("album_artist", match s.album_artist with | some a => .str a | none => .null),
    ("player", match s.player with | some a => .str a | none => .null)]

/-- `Client::get_token` up to its network await (client.rs lines 65-89): in
token mode an `Error::Auth` is returned with no request built; in keyed mode
the signed GET request is built. -/
def get_token_request (auth : AuthMode) : Except Error NetRequest :=
  match auth with
  | .Token _ _ => .error (.Auth "get_token() is only available in Last.fm mode")
  | .LastFm api_key api_secret _ =>
    .ok { verb := .get, url := API_BASE,
          params := signParams (getTokenParams api_key) api_secret,
          body := none, bearer := none }

/-- `Client::get_auth_url` (client.rs lines 105-116): synchronous, never
builds a request; token mode fails with `Error::Auth`. -/
def get_auth_url (auth : AuthMode) (token : AuthToken) : Except Error String :=
  match auth with
  | .Token _ _ => .error (.Auth "get_auth_url() is only available in Last.fm mode")
  | .LastFm api_key _ _ =>
    .ok (AUTH_URL ++ "?api_key=" ++ api_key ++ "&token=" ++ token.token)

/-- `Client::get_session` up to its network await (client.rs lines 119-144). -/
def get_session_request (auth : AuthMode) (token : AuthToken) : Except Error NetRequest :=
  match auth with
  | .Token _ _ => .error (.Auth "get_session() is only available in Last.fm mode")
  | .LastFm api_key api_secret _ =>
    .ok { verb := .get, url := API_BASE,
          params := signParams (getSessionParams api_key token.token) api_secret,
          body := none, bearer := none }

/-- `Client::update_now_playing` up to its network await (client.rs lines
161-221): keyed mode requires the session key before building the signed form
POST; token mode builds a bearer-authenticated JSON POST to `now`. -/
def update_now_playing_request (auth : AuthMode) (np : NowPlaying) :
    Except Error NetRequest :=
  match auth with
  | .LastFm api_key api_secret session_key =>
    match session_key with
    | none => .error (.Auth "Session key required")
    | some sk =>
      .ok { verb := .post, url := API_BASE,
            params := signParams (nowPlayingParams api_key sk np) api_secret,
            body := none, bearer := none }
  | .Token base_url token =>
    .ok { verb := .post, url := urlJoin base_url "now", params := [],
          body := some (nowPlayingJson np), bearer := some token }

/-- The dispatch half of `Client::scrobble` (client.rs lines 236-296), reached
only after batch validation. -/
def scrobble_dispatch (auth : AuthMode) (scrobbles : List Scrobble) :
    Except Error NetRequest :=
  match auth with
  | .LastFm api_key api_secret session_key =>
    match session_key with
    | none => .error (.Auth "Session key required")
    | some sk =>
      .ok { verb := .post, url := API_BASE,
            params := signParams (scrobbleParams api_key sk scrobbles) api_secret,
            body := none, bearer := none }
  | .Token base_url token =>
    .ok { verb := .post, url := urlJoin base_url "scrob", params := [],
          body := some (.arr (scrobbles.map scrobbleJson)), bearer := some token }

/-- `Client::scrobble` up to its network await (client.rs lines 226-296): the
batch bounds are checked first, before the authentication mode is examined. -/
def scrobble_request (auth : AuthMode) (scrobbles : List Scrobble) :
    Except Error NetRequest :=
  if scrobbles.isEmpty then .error (.InvalidParameter "No scrobbles provided")
  else if scrobbles.length > 50 then
    .error (.InvalidParameter "Maximum 50 scrobbles per request")
  else scrobble_dispatch auth scrobbles

/-! ### Response decoding (`client.rs`, the phase after the network await).
The `Option` layer models panics: `none` means the Rust code panics
(an `unwrap()` of `None`) instead of returning. -/

/-- Body handling of `get_token` (client.rs lines 93-101). The
`token.as_str().unwrap()` panics when `token` is present but not a string. -/
def get_token_decode (j : Json) : Option (Except Error AuthToken) :=
  match j.get? "token" with
  | some t => t.asStr?.map (fun s => Except.ok { token := s })
  | none =>
    match j.get? "error" with
    | some e => some (.error (.Api (renderJson e)))
    | none => some (.error (.Api "Unexpected response format"))

/-- Body handling of `get_session` (client.rs lines 148-157). The
`session["key"].as_str().unwrap()` / `session["name"].as_str().unwrap()`
panic when the nested fields are missing or not strings. -/
def get_session_decode (j : Json) : Option (Except Error SessionKey) :=
  match j.get? "session" with
  | some session =>
    match (session.idxStr "key").asStr?, (session.idxStr "name").asStr? with
    | some k, some n => some (.ok { key := k, name := n })
    | _, _ => none
  | none =>
    match j.get? "error" with
    | some e => some (.error (.Auth (renderJson e)))
    | none => some (.error (.Auth "Unexpected response format"))

/-- Body handling of the keyed `update_now_playing` (client.rs lines 200-206).
When `error` is present, `json["message"].as_str().unwrap()` panics unless a
string `message` field exists. -/
def now_playing_decode (j : Json) : Option (Except Error Unit) :=
  if (j.get? "error").isSome then
    (j.idxStr "message").asStr?.map (fun m => Except.error (Error.Api m))
  else some (.ok ())

/-- Serde decoding of `ScrobbleResponse` out of the keyed `scrobble` response
(client.rs lines 278-284); counters are JSON numbers fitting `u32`. -/
def scrobble_decode (j : Json) : Except Error ScrobbleResponse :=
  match j.get? "error" with
  | some e => .error (.Api (renderJson e))
  | none =>
    match j.get? "scrobbles" with
    | some sc =>
      match sc.get? "@attr" with
      | some attr =>
        match attr.get? "accepted", attr.get? "ignored" with
        | some (.num a), some (.num i) =>
          if 0 ≤ a ∧ a < 4294967296 ∧ 0 ≤ i ∧ i < 4294967296 then
            .ok { scrobbles := { attr := { accepted := a.toNat, ignored := i.toNat } } }
          else .error (.Json "invalid value for u32 counter")
        | _, _ => .error (.Json "invalid type for scrobble counters")
      | none => .error (.Json "missing field @attr")
    | none => .error (.Json "missing field scrobbles")

/-- One HTTP response as the transport delivers it: status code and parsed
JSON body. -/
structure HttpResponse where
  status : Nat
  body : Json

/-- `reqwest::Response::error_for_status`: 4xx and 5xx statuses become
transport errors. -/
def error_for_status (status : Nat) : Except Error Unit :=
  if 400 ≤ status ∧ status ≤ 599 then .error (.Http ("status " ++ Nat.repr status))
  else .ok ()

/-- `Client::scrobble` end to end, given the response the single network
exchange would deliver (client.rs lines 226-309). In token mode the response
body is ignored and a synthetic `ScrobbleResponse` is built from the batch
length (`scrobbles.len() as u32`). -/
def scrobble_run (auth : AuthMode) (scrobbles : List Scrobble)
    (resp : HttpResponse) : Except Error ScrobbleResponse :=
  match scrobble_request auth scrobbles with
  | .error e => .error e
  | .ok _ =>
    match error_for_status resp.status with
    | .error e => .error e
    | .ok _ =>
      match auth with
      | .LastFm _ _ _ => scrobble_decode resp.body
      | .Token _ _ =>
        .ok { scrobbles := { attr :=
          { accepted := scrobbles.length % 4294967296, ignored := 0 } } }

/-! ### Track metadata numeric leniency (`track.rs`) -/

/-- `str::parse::<u64>`: an optional leading `+`, then one or more ASCII
digits, rejecting values outside `u64`. -/
def parseU64 (s : String) : Option Nat :=
  let chars := match s.data with
    | '+' :: rest => rest
    | l => l
  if chars.isEmpty then none
  else if chars.all (fun c => c.isDigit) then
    let v := chars.foldl (fun acc c => acc * 10 + (c.toNat - 48)) 0
    if v < 18446744073709551616 then some v else none
  else none

/-- Field decoding for `listeners`/`playcount` (track.rs lines 80-83 and
104-110): `deserialize_string_as_u64` plus `serde(default)`. A missing field
defaults to 0, a non-string value is a decode error, and unparsable text
falls back to 0 via `unwrap_or(0)`. -/
def decodeRequiredCounter (field : Option Json) : Except String Nat :=
  match field with
  | none => .ok 0
  | some j =>
    match j.asStr? with
    | some s => .ok ((parseU64 s).getD 0)
    | none => .error "invalid type: expected a string"

/-- Field decoding for `duration`/`userplaycount`/`userloved` (track.rs lines
76-77, 87-90 and 112-118): `deserialize_optional_string_as_u64` plus
`serde(default)`. A missing or null field decodes to `None`, and present text
decodes through `parse().ok()`, so unparsable text also gives `None`. -/
def decodeOptionalCounter (field : Option Json) : Except String (Option Nat) :=
  match field with
  | none => .ok none
  | some j =>
    match j with
    | .null => .ok none
    | .str s => .ok (parseU64 s)
    | _ => .error "invalid type: expected a string or null"

/-! ### Concrete payloads used by witnesses -/

/-- A minimal scrobble record (only mandatory fields populated). -/
def dummyScrobble : Scrobble :=
  { artist := "a", track := "t", timestamp := 1, album := none, track_number := none,
    duration := none, album_artist := none, player := none }

/-- A minimal now-playing record. -/
def dummyNowPlaying : NowPlaying :=
  { artist := "a", track := "t", album := none, track_number := none,
    duration := none, album_artist := none, player := none }

/-! ### Supporting lemmas for the signature engine -/

theorem concatKV_foldl (l : Params) :
    ∀ acc : String, l.foldl (fun a kv => a ++ kv.1 ++ kv.2) acc = acc ++ concatKV l := by
  induction l with
  | nil => intro acc; simp [concatKV]
  | cons kv t ih =>
    intro acc
    have h1 : concatKV (kv :: t) = ("" ++ kv.1 ++ kv.2) ++ concatKV t := by
      rw [concatKV, List.foldl_cons, ih]
    show List.foldl _ (acc ++ kv.1 ++ kv.2) t = _
    rw [ih, h1]
    simp [String.append_assoc, String.empty_append]

theorem sigString_foldl (l : Params) :
    ∀ acc : String,
      l.foldl (fun a kv => if kv.1 = "format" then a else a ++ kv.1 ++ kv.2) acc =
        acc ++ concatKV (l.filter (fun kv => kv.1 != "format")) := by
  induction l with
  | nil => intro acc; simp [concatKV]
  | cons kv t ih =>
    intro acc
    by_cases h : kv.1 = "format"
    · show List.foldl _ (if kv.1 = "format" then acc else _) t = _
      rw [if_pos h, ih, List.filter_cons_of_neg (by simp [h])]
    · show List.foldl _ (if kv.1 = "format" then acc else _) t = _
      rw [if_neg h, ih, List.filter_cons_of_pos (by simp [h]),
        show concatKV ((kv.1, kv.2) :: t.filter (fun kv => kv.1 != "format")) =
          kv.1 ++ kv.2 ++ concatKV (t.filter (fun kv => kv.1 != "format")) from by
            rw [concatKV, List.foldl_cons, concatKV_foldl]
            simp [String.empty_append, String.append_assoc]]
      simp [String.append_assoc]

theorem sigString_eq (m : Params) :
    sigString m = concatKV (m.filter (fun kv => kv.1 != "format")) := by
  rw [sigString, sigString_foldl, String.empty_append]

theorem leBytes_length (k : Nat) : ∀ n : Nat, (leBytes n k).length = k := by
  induction k with
  | zero => intro n; rfl
  | succ k ih => intro n; simp [leBytes, ih]

theorem md5Bytes_length (msg : List Nat) : (md5Bytes msg).length = 16 := by
  simp [md5Bytes, leBytes_length]

theorem hexDigit_mem_of_lt : ∀ n < 16, hexDigit n ∈ ("0123456789abcdef" : String).data := by
  decide

theorem hexDigit_mod_mem (n : Nat) :
    hexDigit (n % 16) ∈ ("0123456789abcdef" : String).data :=
  hexDigit_mem_of_lt _ (Nat.mod_lt _ (by decide))

theorem hexFoldl_length (l : List Nat) :
    ∀ acc : List Char,
      (l.foldl (fun acc b => acc ++ byteHex b) acc).length = acc.length + 2 * l.length := by
  induction l with
  | nil => intro acc; simp
  | cons b t ih =>
    intro acc
    show (t.foldl _ (acc ++ byteHex b)).length = _
    rw [ih]
    simp [byteHex]
    omega

theorem hexFoldl_mem (l : List Nat) :
    ∀ acc : List Char, (∀ c ∈ acc, c ∈ ("0123456789abcdef" : String).data) →
      ∀ c ∈ l.foldl (fun acc b => acc ++ byteHex b) acc,
        c ∈ ("0123456789abcdef" : String).data := by
  induction l with
  | nil => intro acc hacc c hc; exact hacc c hc
  | cons b t ih =>
    intro acc hacc c hc
    refine ih _ ?_ c hc
    intro d hd
    rcases List.mem_append.mp hd with h | h
    · exact hacc d h
    · simp only [byteHex, List.mem_cons, List.not_mem_nil, or_false] at h
      rcases h with h | h
      · exact h ▸ hexDigit_mod_mem _
      · exact h ▸ hexDigit_mod_mem _

theorem md5Hex_length (s : String) : (md5Hex s).length = 32 := by
  rw [md5Hex]
  show (List.foldl _ [] _).length = 32
  rw [hexFoldl_length, md5Bytes_length]
  rfl

theorem md5Hex_chars (s : String) :
    ∀ c ∈ (md5Hex s).data, c ∈ ("0123456789abcdef" : String).data := by
  intro c hc
  exact hexFoldl_mem _ [] (by simp) c hc

/-- C1: for every parameter mapping (key-sorted, the `BTreeMap` invariant) and
secret, `signature::generate` returns the 32-character lowercase hexadecimal
MD5 digest of the concatenation of `key``value` for every non-`format` entry,
in ascending lexical key order, with the secret appended; in particular the
mapping `(method: test, format: json)` with secret `secret` hashes exactly
`methodtestsecret`, and the empty mapping hashes the secret alone. -/
theorem generate_follows_spec :
    (∀ (m : Params) (secret : String), SortedKeys m →
      generate m secret =
          md5Hex (concatKV (m.filter (fun kv => kv.1 != "format")) ++ secret) ∧
        SortedKeys (m.filter (fun kv => kv.1 != "format")) ∧
        (generate m secret).length = 32 ∧
        (∀ c ∈ (generate m secret).data, c ∈ ("0123456789abcdef" : String).data)) ∧
    generate [("format", "json"), ("method", "test")] "secret" =
      md5Hex "methodtestsecret" ∧
    (∀ secret : String, generate [] secret = md5Hex secret) := by
  refine ⟨fun m secret hm => ⟨?_, ?_, md5Hex_length _, md5Hex_chars _⟩, ?_, ?_⟩
  · rw [generate, sigString_eq]
  · exact hm.filter _
  · rw [generate, show sigString [("format", "json"), ("method", "test")] ++ "secret" =
      "methodtestsecret" from by decide]
  · intro secret
    rw [generate, show sigString [] = "" from rfl, String.empty_append]

/-- Witness for C1 at the concrete sorted map `[(api_key, abc)]`. -/
theorem generate_follows_spec_witness :
    SortedKeys [("api_key", "abc")] ∧
    (generate [("api_key", "abc")] "sec" =
        md5Hex (concatKV ([("api_key", "abc")].filter (fun kv => kv.1 != "format")) ++ "sec") ∧
      SortedKeys ([("api_key", "abc")].filter (fun kv => kv.1 != "format")) ∧
      (generate [("api_key", "abc")] "sec").length = 32 ∧
      (∀ c ∈ (generate [("api_key", "abc")] "sec").data,
        c ∈ ("0123456789abcdef" : String).data)) :=
  ⟨by decide, generate_follows_spec.1 [("api_key", "abc")] "sec" (by decide)⟩

/-! ### Claim theorems (auth modes, batch bounds, decoding) -/

/-- C9: `set_session_key` on the keyed variant replaces only the session key,
leaving `api_key` and `api_secret` unchanged; on the token variant it returns
the value entirely unchanged, and being total it signals no error. -/
theorem set_session_key_only_touches_session_key :
    ∀ (api_key api_secret k : String) (sk0 : Option String) (base_url tok : String),
      AuthMode.set_session_key (.LastFm api_key api_secret sk0) k =
          .LastFm api_key api_secret (some k) ∧
        AuthMode.set_session_key (.Token base_url tok) k = .Token base_url tok :=
  fun _ _ _ _ _ _ => ⟨rfl, rfl⟩

/-- C4: in token mode, `get_token`, `get_auth_url` and `get_session` each
return `Error::Auth` deterministically; the error is produced by the pure
pre-network phase, so no `NetRequest` is ever built and no network request is
issued. -/
theorem token_mode_auth_ops_fail_without_network :
    ∀ (base_url tok : String) (t : AuthToken),
      get_token_request (.Token base_url tok) =
          .error (.Auth "get_token() is only available in Last.fm mode") ∧
        get_auth_url (.Token base_url tok) t =
          .error (.Auth "get_auth_url() is only available in Last.fm mode") ∧
        get_session_request (.Token base_url tok) t =
          .error (.Auth "get_session() is only available in Last.fm mode") :=
  fun _ _ _ => ⟨rfl, rfl, rfl⟩

/-- C5: `scrobble` rejects an empty batch and a batch of more than 50 records
with `Error::InvalidParameter`, in every authentication mode and during the
pure pre-network phase; a batch of 1 to 50 records passes the validation and
reaches the dispatch half, which never produces an invalid-parameter error. -/
theorem scrobble_batch_bounds :
    ∀ (auth : AuthMode) (ss : List Scrobble),
      scrobble_request auth [] = .error (.InvalidParameter "No scrobbles provided") ∧
      (ss.length > 50 →
        scrobble_request auth ss =
          .error (.InvalidParameter "Maximum 50 scrobbles per request")) ∧
      (1 ≤ ss.length → ss.length ≤ 50 →
        scrobble_request auth ss = scrobble_dispatch auth ss ∧
        ∀ msg, scrobble_request auth ss ≠ .error (.InvalidParameter msg)) := by
  intro auth ss
  refine ⟨rfl, fun h => ?_, fun h1 h2 => ?_⟩
  · have hne : ¬ ss.isEmpty = true := by
      cases ss with
      | nil => simp at h
      | cons a t => simp
    rw [scrobble_request, if_neg hne, if_pos h]
  · have hne : ¬ ss.isEmpty = true := by
      cases ss with
      | nil => simp at h1
      | cons a t => simp
    have hreq : scrobble_request auth ss = scrobble_dispatch auth ss := by
      rw [scrobble_request, if_neg hne, if_neg (by omega)]
    refine ⟨hreq, fun msg hcontra => ?_⟩
    rw [hreq] at hcontra
    cases auth with
    | LastFm ak sec sk => cases sk <;> simp [scrobble_dispatch] at hcontra
    | Token b t => simp [scrobble_dispatch] at hcontra

/-- Witness for C5 at concrete batches of sizes 51 and 1. -/
theorem scrobble_batch_bounds_witness :
    ((List.replicate 51 dummyScrobble).length > 50 ∧
      scrobble_request (.LastFm "k" "s" none) (List.replicate 51 dummyScrobble) =
        .error (.InvalidParameter "Maximum 50 scrobbles per request")) ∧
    (1 ≤ [dummyScrobble].length ∧ [dummyScrobble].length ≤ 50 ∧
      (scrobble_request (.LastFm "k" "s" none) [dummyScrobble] =
          scrobble_dispatch (.LastFm "k" "s" none) [dummyScrobble] ∧
        ∀ msg, scrobble_request (.LastFm "k" "s" none) [dummyScrobble] ≠
          .error (.InvalidParameter msg))) :=
  ⟨⟨by simp, (scrobble_batch_bounds (.LastFm "k" "s" none)
      (List.replicate 51 dummyScrobble)).2.1 (by simp)⟩,
    ⟨by simp, by simp, (scrobble_batch_bounds (.LastFm "k" "s" none)
      [dummyScrobble]).2.2 (by simp) (by simp)⟩⟩

/-- C6: a keyed-mode client with no session key set fails `update_now_playing`
(any payload) and `scrobble` (any batch of 1 to 50 records) with `Error::Auth`
in the pure pre-network phase, so no network call is made. -/
theorem keyed_ops_require_session_key :
    ∀ (api_key api_secret : String) (np : NowPlaying) (ss : List Scrobble),
      update_now_playing_request (.LastFm api_key api_secret none) np =
          .error (.Auth "Session key required") ∧
        (1 ≤ ss.length → ss.length ≤ 50 →
          scrobble_request (.LastFm api_key api_secret none) ss =
            .error (.Auth "Session key required")) := by
  intro ak sec np ss
  refine ⟨rfl, fun h1 h2 => ?_⟩
  have hne : ¬ ss.isEmpty = true := by
    cases ss with
    | nil => simp at h1
    | cons a t => simp
  rw [scrobble_request, if_neg hne, if_neg (by omega)]
  rfl

/-- Witness for C6 at a singleton batch. -/
theorem keyed_ops_require_session_key_witness :
    update_now_playing_request (.LastFm "k" "s" none) dummyNowPlaying =
        .error (.Auth "Session key required") ∧
      1 ≤ [dummyScrobble].length ∧ [dummyScrobble].length ≤ 50 ∧
      scrobble_request (.LastFm "k" "s" none) [dummyScrobble] =
        .error (.Auth "Session key required") :=
  ⟨(keyed_ops_require_session_key "k" "s" dummyNowPlaying [dummyScrobble]).1,
    by simp, by simp,
    (keyed_ops_require_session_key "k" "s" dummyNowPlaying [dummyScrobble]).2
      (by simp) (by simp)⟩

/-- C7: in token mode, a scrobble batch of `N` records (1 to 50) answered with
a successful HTTP status yields `accepted = N, ignored = 0`, whatever the
response body holds. -/
theorem token_scrobble_synthesizes_counts :
    ∀ (base_url tok : String) (ss : List Scrobble) (resp : HttpResponse),
      1 ≤ ss.length → ss.length ≤ 50 → 200 ≤ resp.status → resp.status ≤ 299 →
      scrobble_run (.Token base_url tok) ss resp =
        .ok { scrobbles := { attr := { accepted := ss.length, ignored := 0 } } } := by
  intro b tok ss resp h1 h2 hs1 hs2
  have hne : ¬ ss.isEmpty = true := by
    cases ss with
    | nil => simp at h1
    | cons a t => simp
  have hreq : scrobble_request (.Token b tok) ss = scrobble_dispatch (.Token b tok) ss := by
    rw [scrobble_request, if_neg hne, if_neg (by omega)]
  have hst : error_for_status resp.status = .ok () := by
    rw [error_for_status, if_neg (by omega)]
  have hmod : ss.length % 4294967296 = ss.length := Nat.mod_eq_of_lt (by omega)
  simp only [scrobble_run, hreq, scrobble_dispatch, hst, hmod]

/-- Witness for C7 at a singleton batch and a status-200 response with an
arbitrary unrelated body. -/
theorem token_scrobble_synthesizes_counts_witness :
    1 ≤ [dummyScrobble].length ∧ [dummyScrobble].length ≤ 50 ∧
      200 ≤ (HttpResponse.mk 200 (.str "garbage")).status ∧
      (HttpResponse.mk 200 (.str "garbage")).status ≤ 299 ∧
      scrobble_run (.Token "https://scrob.example.com/api/" "tok") [dummyScrobble]
          (HttpResponse.mk 200 (.str "garbage")) =
        .ok { scrobbles := { attr := { accepted := 1, ignored := 0 } } } :=
  ⟨by simp, by simp, by simp, by simp,
    token_scrobble_synthesizes_counts "https://scrob.example.com/api/" "tok"
      [dummyScrobble] (HttpResponse.mk 200 (.str "garbage"))
      (by simp) (by simp) (by simp) (by simp)⟩

/-- C3 (refuting the never-panic claim): on success HTTP statuses the decoders
panic (modelled as `none`) instead of returning a typed error when `token` is
not a string, when `session` lacks a string `key` field, and when `error` is
present without a string `message` field. -/
theorem decoders_panic_on_mistyped_success_bodies :
    get_token_decode (.obj [("token", .num 123)]) = none ∧
      get_session_decode (.obj [("session", .obj [("name", .str "alice")])]) = none ∧
      now_playing_decode (.obj [("error", .num 6)]) = none :=
  ⟨rfl, rfl, rfl⟩

/-- C8: required counters decode unparsable text to 0, optional counters
decode missing and unparsable fields to absent, and an absent optional field
never decodes to 0. -/
theorem lenient_numeric_decoding :
    ∀ s : String, parseU64 s = none →
      decodeRequiredCounter (some (.str s)) = .ok 0 ∧
        decodeOptionalCounter (some (.str s)) = .ok none ∧
        decodeRequiredCounter (some (.str "not-a-number")) = .ok 0 ∧
        decodeOptionalCounter none = .ok none ∧
        decodeOptionalCounter none ≠ .ok (some 0) := by
  intro s h
  refine ⟨?_, ?_, rfl, rfl, by simp [decodeOptionalCounter]⟩
  · simp [decodeRequiredCounter, Json.asStr?, h]
  · simp [decodeOptionalCounter, h]

/-- Witness for C8 at the text `not-a-number`. -/
theorem lenient_numeric_decoding_witness :
    parseU64 "not-a-number" = none ∧
      (decodeRequiredCounter (some (.str "not-a-number")) = .ok 0 ∧
        decodeOptionalCounter (some (.str "not-a-number")) = .ok none ∧
        decodeRequiredCounter (some (.str "not-a-number")) = .ok 0 ∧
        decodeOptionalCounter none = .ok none ∧
        decodeOptionalCounter none ≠ .ok (some 0)) :=
  ⟨by decide, lenient_numeric_decoding "not-a-number" (by decide)⟩

/-! ### Lookup and erase lemmas for the parameter map -/

theorem lookupP_insertP_self (k v : String) :
    ∀ p : Params, lookupP k (insertP k v p) = some v := by
  intro p
  induction p with
  | nil => simp [insertP, lookupP]
  | cons kv t ih =>
    obtain ⟨k1, v1⟩ := kv
    rw [insertP]
    by_cases h1 : k < k1
    · rw [if_pos h1]; simp [lookupP]
    · rw [if_neg h1]
      by_cases h2 : k = k1
      · rw [if_pos h2]; simp [lookupP]
      · rw [if_neg h2]; simp [lookupP, h2, ih]

theorem lookupP_insertP_ne (k k2 v : String) (hne : k ≠ k2) :
    ∀ p : Params, lookupP k (insertP k2 v p) = lookupP k p := by
  intro p
  induction p with
  | nil => simp [insertP, lookupP, hne]
  | cons kv t ih =>
    obtain ⟨k1, v1⟩ := kv
    rw [insertP]
    by_cases h1 : k2 < k1
    · rw [if_pos h1]; simp [lookupP, hne]
    · rw [if_neg h1]
      by_cases h2 : k2 = k1
      · rw [if_pos h2]; subst h2; simp [lookupP, hne]
      · rw [if_neg h2]
        by_cases h3 : k = k1
        · simp [lookupP, h3]
        · simp [lookupP, h3, ih]

theorem eraseP_insertP_gt (k k2 v : String) (hlt : k < k2) :
    ∀ p : Params, eraseP k (insertP k2 v p) = insertP k2 v (eraseP k p) := by
  have hne : k ≠ k2 := ne_of_lt hlt
  intro p
  induction p with
  | nil => simp [insertP, eraseP, hne]
  | cons kv t ih =>
    obtain ⟨k1, v1⟩ := kv
    by_cases h1 : k2 < k1
    · have h2 : k ≠ k1 := ne_of_lt (lt_trans hlt h1)
      simp [insertP, eraseP, h1, hne, h2]
    · by_cases h2 : k2 = k1
      · subst h2
        simp [insertP, eraseP, hne, lt_irrefl]
      · by_cases h3 : k = k1
        · subst h3
          simp [insertP, eraseP, h1, h2, hne]
        · simp [insertP, eraseP, h1, h2, h3, ih]

theorem eraseP_insertP_of_absent (k v : String) :
    ∀ p : Params, lookupP k p = none → eraseP k (insertP k v p) = p := by
  intro p
  induction p with
  | nil => intro _; simp [insertP, eraseP]
  | cons kv t ih =>
    obtain ⟨k1, v1⟩ := kv
    intro hlook
    rw [lookupP] at hlook
    by_cases h2 : k = k1
    · rw [if_pos h2] at hlook; exact absurd hlook (by simp)
    · rw [if_neg h2] at hlook
      rw [insertP]
      by_cases h1 : k < k1
      · rw [if_pos h1, eraseP, if_pos rfl]
      · rw [if_neg h1, if_neg h2, eraseP, if_neg h2, ih hlook]

theorem sigString_insertP_format (v : String) :
    ∀ (m : Params) (acc : String),
      m.foldl (fun a kv => if kv.1 = "format" then a else a ++ kv.1 ++ kv.2)
          (if ("format" : String) = "format" then acc else acc ++ "format" ++ v) =
        m.foldl (fun a kv => if kv.1 = "format" then a else a ++ kv.1 ++ kv.2) acc := by
  intro m acc
  rw [if_pos rfl]

theorem sigString_foldl_insertP_format (v : String) :
    ∀ (m : Params) (acc : String),
      (insertP "format" v m).foldl
          (fun a kv => if kv.1 = "format" then a else a ++ kv.1 ++ kv.2) acc =
        m.foldl (fun a kv => if kv.1 = "format" then a else a ++ kv.1 ++ kv.2) acc := by
  intro m
  induction m with
  | nil => intro acc; simp [insertP]
  | cons kv t ih =>
    obtain ⟨k1, v1⟩ := kv
    intro acc
    rw [insertP]
    by_cases h1 : ("format" : String) < k1
    · rw [if_pos h1, List.foldl_cons]
      simp
    · rw [if_neg h1]
      by_cases h2 : ("format" : String) = k1
      · rw [if_pos h2, List.foldl_cons, List.foldl_cons, if_pos rfl, if_pos h2.symm]
      · rw [if_neg h2, List.foldl_cons, List.foldl_cons, ih]

theorem generate_insertP_format (v : String) (m : Params) (secret : String) :
    generate (insertP "format" v m) secret = generate m secret := by
  rw [generate, generate, sigString, sigString, sigString_foldl_insertP_format]

/-! ### Index-suffixed keys -/

theorem takeWhile_append_of_all {p : Char → Bool} :
    ∀ (l1 : List Char) (c : Char) (l2 : List Char),
      (∀ a ∈ l1, p a = true) → p c = false → (l1 ++ c :: l2).takeWhile p = l1 := by
  intro l1
  induction l1 with
  | nil => intro c l2 _ hc; simp [List.takeWhile_cons, hc]
  | cons a t ih =>
    intro c l2 h hc
    rw [List.cons_append, List.takeWhile_cons, h a (by simp), if_pos rfl,
      ih c l2 (fun x hx => h x (by simp [hx])) hc]

theorem idx_data (b : String) (i : Nat) :
    (idx b i).data = b.data ++ '[' :: ((Nat.repr i).data ++ [']']) := by
  simp only [idx, String.data_append, List.append_assoc]
  rfl

theorem repr_inj_lt50 : ∀ i < 50, ∀ j < 50, Nat.repr i = Nat.repr j → i = j := by
  decide

theorem scrobbleBases_no_bracket :
    ∀ b ∈ scrobbleBases, b.data.all (fun c => c != '[') = true := by
  decide

theorem idx_eq_parts {b b2 : String} {i j : Nat}
    (hb : b.data.all (fun c => c != '[') = true)
    (hb2 : b2.data.all (fun c => c != '[') = true)
    (h : idx b i = idx b2 j) : b = b2 ∧ Nat.repr i = Nat.repr j := by
  have hd := congrArg String.data h
  rw [idx_data, idx_data] at hd
  have hball : ∀ a ∈ b.data, (a != '[') = true := List.all_eq_true.mp hb
  have hball2 : ∀ a ∈ b2.data, (a != '[') = true := List.all_eq_true.mp hb2
  have t1 := takeWhile_append_of_all b.data '[' ((Nat.repr i).data ++ [']']) hball (by decide)
  have t2 := takeWhile_append_of_all b2.data '[' ((Nat.repr j).data ++ [']']) hball2 (by decide)
  have h1 : b.data = b2.data := by rw [← t1, ← t2, hd]
  refine ⟨String.ext h1, ?_⟩
  rw [h1] at hd
  have h2 := List.append_cancel_left hd
  injection h2 with _ h3
  exact String.ext (List.append_cancel_right h3)

theorem idx_ne {b b2 : String} {i j : Nat}
    (hb : b ∈ scrobbleBases) (hb2 : b2 ∈ scrobbleBases)
    (hi : i < 50) (hj : j < 50) (hne : b ≠ b2 ∨ i ≠ j) : idx b i ≠ idx b2 j := by
  intro h
  obtain ⟨h1, h2⟩ :=
    idx_eq_parts (scrobbleBases_no_bracket b hb) (scrobbleBases_no_bracket b2 hb2) h
  rcases hne with hne | hne
  · exact hne h1
  · exact hne (repr_inj_lt50 i hi j hj h2)

theorem ne_idx_of_no_bracket {k : String}
    (hk : k.data.all (fun c => c != '[') = true) (b : String) (i : Nat) :
    k ≠ idx b i := by
  intro h
  have hd := congrArg String.data h
  rw [idx_data] at hd
  have hmem : '[' ∈ k.data := by
    rw [hd]; exact List.mem_append.mpr (Or.inr (by simp))
  have := List.all_eq_true.mp hk _ hmem
  simp at this

/-! ### Parameter lookups of the keyed `update_now_playing` and `scrobble` -/

theorem nowPlayingParams_lookups (ak sk : String) (np : NowPlaying) :
    lookupP "album" (nowPlayingParams ak sk np) = np.album ∧
      lookupP "trackNumber" (nowPlayingParams ak sk np) = np.track_number.map Nat.repr ∧
      lookupP "duration" (nowPlayingParams ak sk np) = np.duration.map Nat.repr ∧
      lookupP "albumArtist" (nowPlayingParams ak sk np) = np.album_artist ∧
      lookupP "artist" (nowPlayingParams ak sk np) = some np.artist ∧
      lookupP "track" (nowPlayingParams ak sk np) = some np.track := by
  obtain ⟨ar, tr, al, tn, du, aa, pl⟩ := np
  simp only [nowPlayingParams]
  cases al <;> cases tn <;> cases du <;> cases aa <;>
    simp [lookupP_insertP_self, lookupP_insertP_ne, lookupP]

theorem nowPlayingParams_ignores_player (ak sk : String) (np : NowPlaying) :
    nowPlayingParams ak sk np = nowPlayingParams ak sk { np with player := none } := by
  obtain ⟨ar, tr, al, tn, du, aa, pl⟩ := np
  rfl

theorem nowPlayingParams_no_keys (ak sk : String) (np : NowPlaying) :
    lookupP "api_sig" (nowPlayingParams ak sk np) = none ∧
      lookupP "format" (nowPlayingParams ak sk np) = none := by
  obtain ⟨ar, tr, al, tn, du, aa, pl⟩ := np
  simp only [nowPlayingParams]
  constructor <;> (cases al <;> cases tn <;> cases du <;> cases aa <;>
    simp [lookupP_insertP_ne, lookupP])

theorem lookupP_scrobbleEntry_ne (k : String) (i : Nat) (s : Scrobble) (p : Params)
    (h : ∀ b ∈ scrobbleBases, k ≠ idx b i) :
    lookupP k (scrobbleEntry i s p) = lookupP k p := by
  have h1 := h "artist" (by decide)
  have h2 := h "track" (by decide)
  have h3 := h "timestamp" (by decide)
  have h4 := h "album" (by decide)
  have h5 := h "trackNumber" (by decide)
  have h6 := h "duration" (by decide)
  have h7 := h "albumArtist" (by decide)
  obtain ⟨ar, tr, ts, al, tn, du, aa, pl⟩ := s
  simp only [scrobbleEntry]
  cases al <;> cases tn <;> cases du <;> cases aa <;>
    simp [lookupP_insertP_ne _ _ _ h1, lookupP_insertP_ne _ _ _ h2,
      lookupP_insertP_ne _ _ _ h3, lookupP_insertP_ne _ _ _ h4,
      lookupP_insertP_ne _ _ _ h5, lookupP_insertP_ne _ _ _ h6,
      lookupP_insertP_ne _ _ _ h7]

theorem lookupP_scrobbleEntry (i : Nat) (hi : i < 50) (s : Scrobble) (p : Params)
    (hp : ∀ b ∈ scrobbleBases, lookupP (idx b i) p = none) :
    lookupP (idx "artist" i) (scrobbleEntry i s p) = some s.artist ∧
      lookupP (idx "track" i) (scrobbleEntry i s p) = some s.track ∧
      lookupP (idx "timestamp" i) (scrobbleEntry i s p) = some (Nat.repr s.timestamp) ∧
      lookupP (idx "album" i) (scrobbleEntry i s p) = s.album ∧
      lookupP (idx "trackNumber" i) (scrobbleEntry i s p) = s.track_number.map Nat.repr ∧
      lookupP (idx "duration" i) (scrobbleEntry i s p) = s.duration.map Nat.repr ∧
      lookupP (idx "albumArtist" i) (scrobbleEntry i s p) = s.album_artist := by
  have hp1 := hp "artist" (by decide)
  have hp2 := hp "track" (by decide)
  have hp3 := hp "timestamp" (by decide)
  have hp4 := hp "album" (by decide)
  have hp5 := hp "trackNumber" (by decide)
  have hp6 := hp "duration" (by decide)
  have hp7 := hp "albumArtist" (by decide)
  have D : ∀ b b2 : String, b ∈ scrobbleBases → b2 ∈ scrobbleBases → b ≠ b2 →
      idx b i ≠ idx b2 i := fun b b2 hb hb2 hne => idx_ne hb hb2 hi hi (Or.inl hne)
  have d12 := D "artist" "track" (by decide) (by decide) (by decide)
  have d13 := D "artist" "timestamp" (by decide) (by decide) (by decide)
  have d14 := D "artist" "album" (by decide) (by decide) (by decide)
  have d15 := D "artist" "trackNumber" (by decide) (by decide) (by decide)
  have d16 := D "artist" "duration" (by decide) (by decide) (by decide)
  have d17 := D "artist" "albumArtist" (by decide) (by decide) (by decide)
  have d21 := D "track" "artist" (by decide) (by decide) (by decide)
  have d23 := D "track" "timestamp" (by decide) (by decide) (by decide)
  have d24 := D "track" "album" (by decide) (by decide) (by decide)
  have d25 := D "track" "trackNumber" (by decide) (by decide) (by decide)
  have d26 := D "track" "duration" (by decide) (by decide) (by decide)
  have d27 := D "track" "albumArtist" (by decide) (by decide) (by decide)
  have d31 := D "timestamp" "artist" (by decide) (by decide) (by decide)
  have d32 := D "timestamp" "track" (by decide) (by decide) (by decide)
  have d34 := D "timestamp" "album" (by decide) (by decide) (by decide)
  have d35 := D "timestamp" "trackNumber" (by decide) (by decide) (by decide)
  have d36 := D "timestamp" "duration" (by decide) (by decide) (by decide)
  have d37 := D "timestamp" "albumArtist" (by decide) (by decide) (by decide)
  have d41 := D "album" "artist" (by decide) (by decide) (by decide)
  have d42 := D "album" "track" (by decide) (by decide) (by decide)
  have d43 := D "album" "timestamp" (by decide) (by decide) (by decide)
  have d45 := D "album" "trackNumber" (by decide) (by decide) (by decide)
  have d46 := D "album" "duration" (by decide) (by decide) (by decide)
  have d47 := D "album" "albumArtist" (by decide) (by decide) (by decide)
  have d51 := D "trackNumber" "artist" (by decide) (by decide) (by decide)
  have d52 := D "trackNumber" "track" (by decide) (by decide) (by decide)
  have d53 := D "trackNumber" "timestamp" (by decide) (by decide) (by decide)
  have d54 := D "trackNumber" "album" (by decide) (by decide) (by decide)
  have d56 := D "trackNumber" "duration" (by decide) (by decide) (by decide)
  have d57 := D "trackNumber" "albumArtist" (by decide) (by decide) (by decide)
  have d61 := D "duration" "artist" (by decide) (by decide) (by decide)
  have d62 := D "duration" "track" (by decide) (by decide) (by decide)
  have d63 := D "duration" "timestamp" (by decide) (by decide) (by decide)
  have d64 := D "duration" "album" (by decide) (by decide) (by decide)
  have d65 := D "duration" "trackNumber" (by decide) (by decide) (by decide)
  have d67 := D "duration" "albumArtist" (by decide) (by decide) (by decide)
  have d71 := D "albumArtist" "artist" (by decide) (by decide) (by decide)
  have d72 := D "albumArtist" "track" (by decide) (by decide) (by decide)
  have d73 := D "albumArtist" "timestamp" (by decide) (by decide) (by decide)
  have d74 := D "albumArtist" "album" (by decide) (by decide) (by decide)
  have d75 := D "albumArtist" "trackNumber" (by decide) (by decide) (by decide)
  have d76 := D "albumArtist" "duration" (by decide) (by decide) (by decide)
  obtain ⟨ar, tr, ts, al, tn, du, aa, pl⟩ := s
  simp only [scrobbleEntry]
  cases al <;> cases tn <;> cases du <;> cases aa <;>
    simp [lookupP_insertP_self, hp1, hp2, hp3, hp4, hp5, hp6, hp7,
      lookupP_insertP_ne _ _ _ d12, lookupP_insertP_ne _ _ _ d13, lookupP_insertP_ne _ _ _ d14, lookupP_insertP_ne _ _ _ d15, lookupP_insertP_ne _ _ _ d16, lookupP_insertP_ne _ _ _ d17, lookupP_insertP_ne _ _ _ d21, lookupP_insertP_ne _ _ _ d23, lookupP_insertP_ne _ _ _ d24, lookupP_insertP_ne _ _ _ d25, lookupP_insertP_ne _ _ _ d26, lookupP_insertP_ne _ _ _ d27, lookupP_insertP_ne _ _ _ d31, lookupP_insertP_ne _ _ _ d32, lookupP_insertP_ne _ _ _ d34, lookupP_insertP_ne _ _ _ d35, lookupP_insertP_ne _ _ _ d36, lookupP_insertP_ne _ _ _ d37, lookupP_insertP_ne _ _ _ d41, lookupP_insertP_ne _ _ _ d42, lookupP_insertP_ne _ _ _ d43, lookupP_insertP_ne _ _ _ d45, lookupP_insertP_ne _ _ _ d46, lookupP_insertP_ne _ _ _ d47, lookupP_insertP_ne _ _ _ d51, lookupP_insertP_ne _ _ _ d52, lookupP_insertP_ne _ _ _ d53, lookupP_insertP_ne _ _ _ d54, lookupP_insertP_ne _ _ _ d56, lookupP_insertP_ne _ _ _ d57, lookupP_insertP_ne _ _ _ d61, lookupP_insertP_ne _ _ _ d62, lookupP_insertP_ne _ _ _ d63, lookupP_insertP_ne _ _ _ d64, lookupP_insertP_ne _ _ _ d65, lookupP_insertP_ne _ _ _ d67, lookupP_insertP_ne _ _ _ d71, lookupP_insertP_ne _ _ _ d72, lookupP_insertP_ne _ _ _ d73, lookupP_insertP_ne _ _ _ d74, lookupP_insertP_ne _ _ _ d75, lookupP_insertP_ne _ _ _ d76]

theorem lookupP_scrobbleFold_ne (k : String) :
    ∀ (ss : List Scrobble) (start : Nat) (p : Params),
      (∀ j, start ≤ j → j < start + ss.length → ∀ b ∈ scrobbleBases, k ≠ idx b j) →
      lookupP k ((ss.enumFrom start).foldl (fun p is => scrobbleEntry is.1 is.2 p) p) =
        lookupP k p := by
  intro ss
  induction ss with
  | nil => intro start p _; rfl
  | cons s t ih =>
    intro start p h
    simp only [List.enumFrom, List.foldl_cons]
    rw [ih (start + 1) (scrobbleEntry start s p)
        (fun j hj1 hj2 b hb => h j (by omega) (by simp only [List.length_cons]; omega) b hb),
      lookupP_scrobbleEntry_ne k start s p
        (fun b hb => h start (le_refl start) (by simp only [List.length_cons]; omega) b hb)]

theorem lookupP_scrobbleFold :
    ∀ (ss : List Scrobble) (start : Nat) (p : Params), start + ss.length ≤ 50 →
      (∀ j, start ≤ j → j < 50 → ∀ b ∈ scrobbleBases, lookupP (idx b j) p = none) →
      ∀ (i : Nat) (hi : i < ss.length),
        lookupP (idx "artist" (start + i))
            ((ss.enumFrom start).foldl (fun p is => scrobbleEntry is.1 is.2 p) p) =
          some ((ss.get ⟨i, hi⟩).artist) ∧
        lookupP (idx "track" (start + i))
            ((ss.enumFrom start).foldl (fun p is => scrobbleEntry is.1 is.2 p) p) =
          some ((ss.get ⟨i, hi⟩).track) ∧
        lookupP (idx "timestamp" (start + i))
            ((ss.enumFrom start).foldl (fun p is => scrobbleEntry is.1 is.2 p) p) =
          some (Nat.repr ((ss.get ⟨i, hi⟩).timestamp)) ∧
        lookupP (idx "album" (start + i))
            ((ss.enumFrom start).foldl (fun p is => scrobbleEntry is.1 is.2 p) p) =
          (ss.get ⟨i, hi⟩).album ∧
        lookupP (idx "trackNumber" (start + i))
            ((ss.enumFrom start).foldl (fun p is => scrobbleEntry is.1 is.2 p) p) =
          ((ss.get ⟨i, hi⟩).track_number.map Nat.repr) ∧
        lookupP (idx "duration" (start + i))
            ((ss.enumFrom start).foldl (fun p is => scrobbleEntry is.1 is.2 p) p) =
          ((ss.get ⟨i, hi⟩).duration.map Nat.repr) ∧
        lookupP (idx "albumArtist" (start + i))
            ((ss.enumFrom start).foldl (fun p is => scrobbleEntry is.1 is.2 p) p) =
          (ss.get ⟨i, hi⟩).album_artist := by
  intro ss
  induction ss with
  | nil => intro start p _ _ i hi; exact absurd hi (by simp)
  | cons s t ih =>
    intro start p hb hp i hi
    have hstart50 : start < 50 := by simp only [List.length_cons] at hb; omega
    simp only [List.enumFrom, List.foldl_cons]
    cases i with
    | zero =>
      have hfne : ∀ bb ∈ scrobbleBases,
          lookupP (idx bb start) ((t.enumFrom (start + 1)).foldl
              (fun p is => scrobbleEntry is.1 is.2 p) (scrobbleEntry start s p)) =
            lookupP (idx bb start) (scrobbleEntry start s p) := fun bb hbb =>
        lookupP_scrobbleFold_ne (idx bb start) t (start + 1) (scrobbleEntry start s p)
          (fun j hj1 hj2 b2 hb2 =>
            idx_ne hbb hb2 hstart50
              (by simp only [List.length_cons] at hb; omega) (Or.inr (by omega)))
      have hent := lookupP_scrobbleEntry start hstart50 s p
        (fun b hbmem => hp start (le_refl start) hstart50 b hbmem)
      simp only [Nat.add_zero, List.get]
      exact ⟨by rw [hfne "artist" (by decide)]; exact hent.1,
        by rw [hfne "track" (by decide)]; exact hent.2.1,
        by rw [hfne "timestamp" (by decide)]; exact hent.2.2.1,
        by rw [hfne "album" (by decide)]; exact hent.2.2.2.1,
        by rw [hfne "trackNumber" (by decide)]; exact hent.2.2.2.2.1,
        by rw [hfne "duration" (by decide)]; exact hent.2.2.2.2.2.1,
        by rw [hfne "albumArtist" (by decide)]; exact hent.2.2.2.2.2.2⟩
    | succ i2 =>
      have hp2 : ∀ j, start + 1 ≤ j → j < 50 → ∀ b ∈ scrobbleBases,
          lookupP (idx b j) (scrobbleEntry start s p) = none := by
        intro j hj1 hj2 b hbm
        rw [lookupP_scrobbleEntry_ne (idx b j) start s p
          (fun b2 hb2 => idx_ne hbm hb2 hj2 hstart50 (Or.inr (by omega)))]
        exact hp j (by omega) hj2 b hbm
      have hrec := ih (start + 1) (scrobbleEntry start s p)
        (by simp only [List.length_cons] at hb; omega) hp2 i2
        (by simp only [List.length_cons] at hi; omega)
      have harith : start + 1 + i2 = start + (i2 + 1) := by omega
      rw [harith] at hrec
      simpa only [List.get] using hrec

theorem scrobbleBaseParams_no_idx (ak sk : String) :
    ∀ j, 0 ≤ j → j < 50 → ∀ b ∈ scrobbleBases,
      lookupP (idx b j)
          (insertP "sk" sk (insertP "api_key" ak (insertP "method" "track.scrobble" []))) =
        none := by
  intro j _ _ b _
  have n1 : idx b j ≠ "sk" := Ne.symm (ne_idx_of_no_bracket (by decide) b j)
  have n2 : idx b j ≠ "api_key" := Ne.symm (ne_idx_of_no_bracket (by decide) b j)
  have n3 : idx b j ≠ "method" := Ne.symm (ne_idx_of_no_bracket (by decide) b j)
  rw [lookupP_insertP_ne _ _ _ n1, lookupP_insertP_ne _ _ _ n2, lookupP_insertP_ne _ _ _ n3]
  rfl

theorem scrobbleParams_lookups (ak sk : String) (ss : List Scrobble)
    (hlen : ss.length ≤ 50) (i : Nat) (hi : i < ss.length) :
    lookupP (idx "artist" i) (scrobbleParams ak sk ss) = some ((ss.get ⟨i, hi⟩).artist) ∧
      lookupP (idx "track" i) (scrobbleParams ak sk ss) = some ((ss.get ⟨i, hi⟩).track) ∧
      lookupP (idx "timestamp" i) (scrobbleParams ak sk ss) =
        some (Nat.repr ((ss.get ⟨i, hi⟩).timestamp)) ∧
      lookupP (idx "album" i) (scrobbleParams ak sk ss) = (ss.get ⟨i, hi⟩).album ∧
      lookupP (idx "trackNumber" i) (scrobbleParams ak sk ss) =
        ((ss.get ⟨i, hi⟩).track_number.map Nat.repr) ∧
      lookupP (idx "duration" i) (scrobbleParams ak sk ss) =
        ((ss.get ⟨i, hi⟩).duration.map Nat.repr) ∧
      lookupP (idx "albumArtist" i) (scrobbleParams ak sk ss) =
        (ss.get ⟨i, hi⟩).album_artist := by
  have h := lookupP_scrobbleFold ss 0
    (insertP "sk" sk (insertP "api_key" ak (insertP "method" "track.scrobble" [])))
    (by omega) (scrobbleBaseParams_no_idx ak sk) i hi
  simpa only [Nat.zero_add] using h

theorem scrobbleEntry_ignores_player (i : Nat) (s : Scrobble) (p : Params) :
    scrobbleEntry i { s with player := none } p = scrobbleEntry i s p := by
  obtain ⟨ar, tr, ts, al, tn, du, aa, pl⟩ := s
  rfl

theorem scrobbleFold_ignores_player :
    ∀ (ss : List Scrobble) (start : Nat) (p : Params),
      (((ss.map (fun s => { s with player := none })).enumFrom start).foldl
          (fun p is => scrobbleEntry is.1 is.2 p) p) =
        ((ss.enumFrom start).foldl (fun p is => scrobbleEntry is.1 is.2 p) p) := by
  intro ss
  induction ss with
  | nil => intro start p; rfl
  | cons s t ih =>
    intro start p
    simp only [List.map, List.enumFrom, List.foldl_cons]
    rw [scrobbleEntry_ignores_player, ih]

theorem scrobbleParams_ignores_player (ak sk : String) (ss : List Scrobble) :
    scrobbleParams ak sk (ss.map (fun s => { s with player := none })) =
      scrobbleParams ak sk ss :=
  scrobbleFold_ignores_player ss 0
    (insertP "sk" sk (insertP "api_key" ak (insertP "method" "track.scrobble" [])))

/-! ### Signature placement lemmas (for the signed operations) -/

theorem getTokenParams_no_keys (ak : String) :
    lookupP "api_sig" (getTokenParams ak) = none ∧
      lookupP "format" (getTokenParams ak) = none := by
  constructor <;> simp [getTokenParams, lookupP_insertP_ne, lookupP]

theorem getSessionParams_no_keys (ak tok : String) :
    lookupP "api_sig" (getSessionParams ak tok) = none ∧
      lookupP "format" (getSessionParams ak tok) = none := by
  constructor <;> simp [getSessionParams, lookupP_insertP_ne, lookupP]

theorem scrobbleParams_no_keys (ak sk : String) (ss : List Scrobble) :
    lookupP "api_sig" (scrobbleParams ak sk ss) = none ∧
      lookupP "format" (scrobbleParams ak sk ss) = none := by
  constructor
  · rw [scrobbleParams, show List.enum ss = List.enumFrom 0 ss from rfl,
      lookupP_scrobbleFold_ne "api_sig" ss 0 _
        (fun j _ _ b _ => ne_idx_of_no_bracket (by decide) b j)]
    simp [lookupP_insertP_ne, lookupP]
  · rw [scrobbleParams, show List.enum ss = List.enumFrom 0 ss from rfl,
      lookupP_scrobbleFold_ne "format" ss 0 _
        (fun j _ _ b _ => ne_idx_of_no_bracket (by decide) b j)]
    simp [lookupP_insertP_ne, lookupP]

theorem signParams_consistent (p : Params) (secret : String)
    (h1 : lookupP "api_sig" p = none) :
    lookupP "api_sig" (signParams p secret) = some (generate p secret) ∧
      generate (eraseP "api_sig" (signParams p secret)) secret = generate p secret := by
  constructor
  · rw [signParams, lookupP_insertP_ne _ _ _ (by decide), lookupP_insertP_self]
  · rw [signParams, eraseP_insertP_gt _ _ _ (show ("api_sig" : String) < "format" by simp; decide),
      eraseP_insertP_of_absent _ _ _ h1, generate_insertP_format]

/-- C2 counterexample: a payload whose `player` field is present contributes
no parameter at all in keyed mode — no form entry carries the player value
and no `player` (or `player[0]`) key exists — refuting "contains every
present optional field" for the full optional-field list, which includes
`player` in both `NowPlaying` and `Scrobble`. -/
theorem player_field_never_encoded :
    ((nowPlayingParams "k" "s"
        { artist := "a", track := "t", album := none, track_number := none,
          duration := none, album_artist := none, player := some "PlayerX" }).all
      (fun kv => kv.2 != "PlayerX")) = true ∧
    lookupP "player" (nowPlayingParams "k" "s"
        { artist := "a", track := "t", album := none, track_number := none,
          duration := none, album_artist := none, player := some "PlayerX" }) = none ∧
    ((scrobbleParams "k" "s"
        [{ artist := "a", track := "t", timestamp := 1, album := none, track_number := none,
           duration := none, album_artist := none, player := some "PlayerX" }]).all
      (fun kv => kv.2 != "PlayerX")) = true ∧
    lookupP (idx "player" 0) (scrobbleParams "k" "s"
        [{ artist := "a", track := "t", timestamp := 1, album := none, track_number := none,
           duration := none, album_artist := none, player := some "PlayerX" }]) = none := by
  refine ⟨?_, ?_, ?_, ?_⟩ <;>
    simp +decide [nowPlayingParams, scrobbleParams, scrobbleEntry, insertP, lookupP,
      idx, List.enum, List.enumFrom]

/-- C2 (amended): in keyed mode, `update_now_playing`'s form parameter set
contains every present optional field among `album`, `track_number`,
`duration`, `album_artist` (under the names `album`, `trackNumber`,
`duration`, `albumArtist`) and `scrobble`'s parameter set contains, for each
record at position `i`, these present optional fields index-suffixed with
`[i]` in addition to `artist[i]`, `track[i]`, `timestamp[i]`; an absent
optional field contributes no parameter; the `player` field is never encoded
in keyed mode (erasing it leaves both parameter sets unchanged). -/
theorem keyed_params_optional_fields :
    ∀ (api_key sk : String) (np : NowPlaying) (ss : List Scrobble),
      (lookupP "album" (nowPlayingParams api_key sk np) = np.album ∧
        lookupP "trackNumber" (nowPlayingParams api_key sk np) =
          np.track_number.map Nat.repr ∧
        lookupP "duration" (nowPlayingParams api_key sk np) = np.duration.map Nat.repr ∧
        lookupP "albumArtist" (nowPlayingParams api_key sk np) = np.album_artist ∧
        lookupP "artist" (nowPlayingParams api_key sk np) = some np.artist ∧
        lookupP "track" (nowPlayingParams api_key sk np) = some np.track ∧
        nowPlayingParams api_key sk np =
          nowPlayingParams api_key sk { np with player := none }) ∧
      (ss.length ≤ 50 →
        ∀ i (hi : i < ss.length),
          lookupP (idx "artist" i) (scrobbleParams api_key sk ss) =
            some ((ss.get ⟨i, hi⟩).artist) ∧
          lookupP (idx "track" i) (scrobbleParams api_key sk ss) =
            some ((ss.get ⟨i, hi⟩).track) ∧
          lookupP (idx "timestamp" i) (scrobbleParams api_key sk ss) =
            some (Nat.repr ((ss.get ⟨i, hi⟩).timestamp)) ∧
          lookupP (idx "album" i) (scrobbleParams api_key sk ss) =
            (ss.get ⟨i, hi⟩).album ∧
          lookupP (idx "trackNumber" i) (scrobbleParams api_key sk ss) =
            ((ss.get ⟨i, hi⟩).track_number.map Nat.repr) ∧
          lookupP (idx "duration" i) (scrobbleParams api_key sk ss) =
            ((ss.get ⟨i, hi⟩).duration.map Nat.repr) ∧
          lookupP (idx "albumArtist" i) (scrobbleParams api_key sk ss) =
            (ss.get ⟨i, hi⟩).album_artist) ∧
      scrobbleParams api_key sk (ss.map (fun s => { s with player := none })) =
        scrobbleParams api_key sk ss := by
  intro ak sk np ss
  have h1 := nowPlayingParams_lookups ak sk np
  exact ⟨⟨h1.1, h1.2.1, h1.2.2.1, h1.2.2.2.1, h1.2.2.2.2.1, h1.2.2.2.2.2,
      nowPlayingParams_ignores_player ak sk np⟩,
    fun hlen i hi => scrobbleParams_lookups ak sk ss hlen i hi,
    scrobbleParams_ignores_player ak sk ss⟩

/-- Witness for C2 (amended) at a singleton batch and minimal payload. -/
theorem keyed_params_optional_fields_witness :
    [dummyScrobble].length ≤ 50 ∧ (0 : Nat) < [dummyScrobble].length ∧
      lookupP "album" (nowPlayingParams "k" "s" dummyNowPlaying) = none ∧
      lookupP (idx "artist" 0) (scrobbleParams "k" "s" [dummyScrobble]) = some "a" ∧
      lookupP (idx "album" 0) (scrobbleParams "k" "s" [dummyScrobble]) = none := by
  have h := keyed_params_optional_fields "k" "s" dummyNowPlaying [dummyScrobble]
  have h2 := h.2.1 (by simp) 0 (by simp)
  exact ⟨by simp, by simp, by simpa [dummyNowPlaying] using h.1.1,
    by simpa [dummyScrobble] using h2.1,
    by simpa [dummyScrobble] using h2.2.2.2.1⟩

/-- C10: in each signed operation (`get_token`, `get_session`, keyed
`update_now_playing`, keyed `scrobble`), the signature is computed over the
parameter set before `api_sig` and `format` are inserted — neither key occurs
in the hashed set — and the wire parameter set is self-consistent: its
`api_sig` entry equals the signature of the wire set with `api_sig` removed
(`generate` itself ignores `format`). -/
theorem api_sig_signed_before_insertion :
    ∀ (api_key api_secret sk tok : String) (np : NowPlaying) (ss : List Scrobble),
      (lookupP "api_sig" (getTokenParams api_key) = none ∧
        lookupP "format" (getTokenParams api_key) = none ∧
        lookupP "api_sig" (signParams (getTokenParams api_key) api_secret) =
          some (generate (getTokenParams api_key) api_secret) ∧
        generate (eraseP "api_sig" (signParams (getTokenParams api_key) api_secret))
            api_secret = generate (getTokenParams api_key) api_secret) ∧
      (lookupP "api_sig" (getSessionParams api_key tok) = none ∧
        lookupP "format" (getSessionParams api_key tok) = none ∧
        lookupP "api_sig" (signParams (getSessionParams api_key tok) api_secret) =
          some (generate (getSessionParams api_key tok) api_secret) ∧
        generate (eraseP "api_sig" (signParams (getSessionParams api_key tok) api_secret))
            api_secret = generate (getSessionParams api_key tok) api_secret) ∧
      (lookupP "api_sig" (nowPlayingParams api_key sk np) = none ∧
        lookupP "format" (nowPlayingParams api_key sk np) = none ∧
        lookupP "api_sig" (signParams (nowPlayingParams api_key sk np) api_secret) =
          some (generate (nowPlayingParams api_key sk np) api_secret) ∧
        generate (eraseP "api_sig" (signParams (nowPlayingParams api_key sk np) api_secret))
            api_secret = generate (nowPlayingParams api_key sk np) api_secret) ∧
      (lookupP "api_sig" (scrobbleParams api_key sk ss) = none ∧
        lookupP "format" (scrobbleParams api_key sk ss) = none ∧
        lookupP "api_sig" (signParams (scrobbleParams api_key sk ss) api_secret) =
          some (generate (scrobbleParams api_key sk ss) api_secret) ∧
        generate (eraseP "api_sig" (signParams (scrobbleParams api_key sk ss) api_secret))
            api_secret = generate (scrobbleParams api_key sk ss) api_secret) := by
  intro ak sec sk tok np ss
  have g1 := getTokenParams_no_keys ak
  have c1 := signParams_consistent (getTokenParams ak) sec g1.1
  have g2 := getSessionParams_no_keys ak tok
  have c2 := signParams_consistent (getSessionParams ak tok) sec g2.1
  have g3 := nowPlayingParams_no_keys ak sk np
  have c3 := signParams_consistent (nowPlayingParams ak sk np) sec g3.1
  have g4 := scrobbleParams_no_keys ak sk ss
  have c4 := signParams_consistent (scrobbleParams ak sk ss) sec g4.1
  exact ⟨⟨g1.1, g1.2, c1.1, c1.2⟩, ⟨g2.1, g2.2, c2.1, c2.2⟩,
    ⟨g3.1, g3.2, c3.1, c3.2⟩, ⟨g4.1, g4.2, c4.1, c4.2⟩⟩

end LastFm
